import Mathlib

/-!
# sniper-bot-ecosystem: Hardhat configuration and FlashLoanExecutor deployment

A shallow embedding of

* `smart-contract/hardhat.config.js`: the module body, as a function of the two
  environment values it reads;
* `smart-contract/scripts/deployFlashLoan.js`: `main`, the top-level
  `main().catch(...)` and the whole file from line 1 on, as explicit state
  passing over the process state (effect trace and exit code). The outcome of
  line 1, `require("hardhat")`, is a parameter: the Hardhat runtime, or the
  error thrown while it loads.
-/

namespace SniperBot

/-! ## JavaScript values used by the two files -/

/-- A thrown JavaScript value: an `Error` carrying its message. -/
structure JsError where
  message : String
  deriving DecidableEq, Repr

deriving instance DecidableEq for Except

/-- A value read from `process.env`: `undefined` (`none`) or a string. -/
abbrev EnvValue := Option String

/-- JavaScript `!v` on a value of `process.env`: `undefined` and the empty
string are falsy, every other string is truthy. -/
def jsNot : EnvValue → Bool
  | none => true
  | some s => s == ""

/-! ## hardhat.config.js -/

/-- The two names destructured from `process.env`. -/
structure Env where
  ALCHEMY_HTTPS_URL : EnvValue
  BOT_PRIVATE_KEY : EnvValue
  deriving DecidableEq, Repr

/-- One entry of `networks`: `{ url, accounts }`. -/
structure NetworkConfig where
  url : EnvValue
  accounts : List EnvValue
  deriving DecidableEq, Repr

/-- The exported object: `{ solidity, networks }`, with `networks` as its
list of (key, value) entries in source order. -/
structure HardhatUserConfig where
  solidity : String
  networks : List (String × NetworkConfig)
  deriving DecidableEq, Repr

/-- The body of `hardhat.config.js` after the `require` lines: two guards
that throw, then the value assigned to `module.exports`. -/
def loadConfig (env : Env) : Except JsError HardhatUserConfig :=
  if jsNot env.ALCHEMY_HTTPS_URL then
    .error ⟨"A variável ALCHEMY_HTTPS_URL não foi encontrada no seu .env"⟩
  else if jsNot env.BOT_PRIVATE_KEY then
    .error ⟨"A variável BOT_PRIVATE_KEY não foi encontrada no seu .env"⟩
  else
    .ok
      { solidity := "0.8.20"
        networks :=
          [("sepolia",
            { url := env.ALCHEMY_HTTPS_URL
              accounts := [env.BOT_PRIVATE_KEY] })] }

/-! ## scripts/deployFlashLoan.js -/

/-- The contract object `deployContract` resolves to, by the outcome of each
of the two methods the script awaits on it. -/
structure Executor where
  waitForDeployment : Except JsError Unit
  getAddress : Except JsError String

/-- The part of the Hardhat runtime the script uses: `hre.ethers.deployContract`
applied to a contract name and a constructor-argument list. -/
structure Hre where
  deployContract : String → List String → Except JsError Executor

/-- An observable effect of the script. -/
inductive Effect where
  | stdout (line : String)
  | stderr (error : JsError)
  | deployContract (name : String) (args : List String)
  | waitForDeployment
  | getAddress
  deriving DecidableEq, Repr

/-- The process state the script acts on: the effects so far, oldest first,
and `process.exitCode`, the status the process ends with. -/
structure Process where
  trace : List Effect
  exitCode : Nat
  deriving DecidableEq, Repr

/-- A process at startup: nothing has happened and the exit code is 0. -/
def Process.initial : Process := { trace := [], exitCode := 0 }

/-- Append one effect to the trace. -/
def Process.record (p : Process) (e : Effect) : Process :=
  { p with trace := p.trace ++ [e] }

/-- The call `console.log(line)`. -/
def consoleLog (line : String) (p : Process) : Process :=
  p.record (.stdout line)

/-- The call `console.error(error)`. -/
def consoleError (error : JsError) (p : Process) : Process :=
  p.record (.stderr error)

/-- The `async function main()`: its settlement (`.ok ()` resolved,
`.error e` rejected with `e`) and the process state it leaves. -/
def main (hre : Hre) (p : Process) : Except JsError Unit × Process :=
  let aavePoolAddress := "0x7b0d91c1c221542642591a2bf354911a3ef1b74a"
  let p := consoleLog "Fazendo deploy do contrato FlashLoanExecutor..." p
  let p := p.record (.deployContract "FlashLoanExecutor" [aavePoolAddress])
  match hre.deployContract "FlashLoanExecutor" [aavePoolAddress] with
  | .error e => (.error e, p)
  | .ok executor =>
    let p := p.record .waitForDeployment
    match executor.waitForDeployment with
    | .error e => (.error e, p)
    | .ok () =>
      let p := p.record .getAddress
      match executor.getAddress with
      | .error e => (.error e, p)
      | .ok contractAddress =>
        (.ok (),
          consoleLog
            ("Contrato FlashLoanExecutor publicado com sucesso no endereço: "
              ++ contractAddress) p)

/-- Lines 14 to 17, `main().catch((error) => ...)`, once line 1 has bound
`hre`. -/
def script (hre : Hre) (p : Process) : Process :=
  match main hre p with
  | (.ok (), p) => p
  | (.error error, p) => { consoleError error p with exitCode := 1 }

/-- Line 1, `require("hardhat")`, in this repository: Hardhat evaluates
`hardhat.config.js` while it is being required, so an error thrown by the
configuration module is thrown by the `require`; otherwise `runtime` is what
the `require` returns. -/
def requireHardhat (env : Env) (runtime : Hre) : Except JsError Hre :=
  match loadConfig env with
  | .error e => .error e
  | .ok _ => .ok runtime

/-- The whole file `deployFlashLoan.js`, given the outcome of line 1,
`const hre = require("hardhat")`. An error thrown there is caught by nothing:
it goes to error output, the process ends with status 1 and `main` is never
called. Otherwise the file goes on to `main().catch(...)`. -/
def deployFlashLoan (required : Except JsError Hre) (p : Process) : Process :=
  match required with
  | .error e => { p.record (.stderr e) with exitCode := 1 }
  | .ok hre => script hre p

/-! ## Observations on a trace -/

/-- The lines written to standard output, in order. -/
def stdoutLines : List Effect → List String
  | [] => []
  | .stdout line :: t => line :: stdoutLines t
  | _ :: t => stdoutLines t

/-- The values written to error output, in order. -/
def stderrWrites : List Effect → List JsError
  | [] => []
  | .stderr e :: t => e :: stderrWrites t
  | _ :: t => stderrWrites t

/-- The (name, arguments) of each `deployContract` call, in order. -/
def deployCalls : List Effect → List (String × List String)
  | [] => []
  | .deployContract name args :: t => (name, args) :: deployCalls t
  | _ :: t => deployCalls t

/-! ## Helper lemmas -/

theorem stderrWrites_append (l₁ l₂ : List Effect) :
    stderrWrites (l₁ ++ l₂) = stderrWrites l₁ ++ stderrWrites l₂ := by
  induction l₁ with
  | nil => rfl
  | cons e t ih => cases e <;> simp [stderrWrites, ih]

theorem deployCalls_append (l₁ l₂ : List Effect) :
    deployCalls (l₁ ++ l₂) = deployCalls l₁ ++ deployCalls l₂ := by
  induction l₁ with
  | nil => rfl
  | cons e t ih => cases e <;> simp [deployCalls, ih]

/-- The progress line is not a success line, whatever the address. -/
theorem progress_ne_success (a : String) :
    "Fazendo deploy do contrato FlashLoanExecutor..." ≠
      "Contrato FlashLoanExecutor publicado com sucesso no endereço: " ++ a := by
  intro h
  have := congrArg (fun s => s.data.head?) h
  simp at this

/-- Appending to a fixed string is injective. -/
theorem append_left_cancel (s a b : String) (h : s ++ a = s ++ b) : a = b := by
  have := congrArg String.data h
  simp at this
  exact String.ext this

/-! ## hardhat.config.js: theorems -/

/-- C1: loading the configuration module throws if and only if at least one of
`ALCHEMY_HTTPS_URL`, `BOT_PRIVATE_KEY` is absent or the empty string; for every
pair of non-empty strings it does not throw. -/
theorem loadConfig_throws_iff :
    (∀ env : Env, (∃ e, loadConfig env = .error e) ↔
      (env.ALCHEMY_HTTPS_URL = none ∨ env.ALCHEMY_HTTPS_URL = some "" ∨
        env.BOT_PRIVATE_KEY = none ∨ env.BOT_PRIVATE_KEY = some "")) ∧
    (∀ url key : String, url ≠ "" → key ≠ "" →
      ∃ config, loadConfig ⟨some url, some key⟩ = .ok config) := by
  constructor
  · intro env
    rcases env with ⟨_ | u, _ | k⟩ <;> simp [loadConfig, jsNot]
    all_goals split_ifs <;> simp_all
  · intro url key hu hk
    simp [loadConfig, jsNot, hu, hk]

/-- C1 at concrete inputs: one value absent, one value empty, both present. -/
theorem loadConfig_throws_iff_witness :
    (∃ e, loadConfig ⟨some "https://rpc", none⟩ = .error e) ∧
    (∃ e, loadConfig ⟨some "", some "0xkey"⟩ = .error e) ∧
    (∃ config, loadConfig ⟨some "https://rpc", some "0xkey"⟩ = .ok config) :=
  ⟨(loadConfig_throws_iff.1 ⟨some "https://rpc", none⟩).2 (by decide),
   (loadConfig_throws_iff.1 ⟨some "", some "0xkey"⟩).2 (by decide),
   loadConfig_throws_iff.2 "https://rpc" "0xkey" (by decide) (by decide)⟩

/-- C2: for non-empty `url` and `key` the module loads, and the exported
configuration has `solidity = "0.8.20"` and exactly one network, `sepolia`,
whose `url` is `url` unchanged and whose `accounts` is `[key]`. -/
theorem loadConfig_exports (url key : String) (hu : url ≠ "") (hk : key ≠ "") :
    loadConfig ⟨some url, some key⟩ =
      .ok
        { solidity := "0.8.20"
          networks := [("sepolia", { url := some url, accounts := [some key] })] } := by
  simp [loadConfig, jsNot, hu, hk]

/-- C2 at a URL that is no HTTPS URL: the value is passed through unchecked. -/
theorem loadConfig_exports_witness :
    loadConfig ⟨some "not a url", some "k"⟩ =
      .ok
        { solidity := "0.8.20"
          networks := [("sepolia", { url := some "not a url", accounts := [some "k"] })] } :=
  loadConfig_exports "not a url" "k" (by decide) (by decide)

/-- C7: when `ALCHEMY_HTTPS_URL` is absent or empty the thrown message names
`ALCHEMY_HTTPS_URL`, whatever `BOT_PRIVATE_KEY` is; when `ALCHEMY_HTTPS_URL` is
a non-empty string and `BOT_PRIVATE_KEY` is absent or empty the thrown message
names `BOT_PRIVATE_KEY`. -/
theorem loadConfig_error_message (env : Env) :
    (env.ALCHEMY_HTTPS_URL = none ∨ env.ALCHEMY_HTTPS_URL = some "" →
      loadConfig env =
        .error ⟨"A variável ALCHEMY_HTTPS_URL não foi encontrada no seu .env"⟩) ∧
    ((∃ url, env.ALCHEMY_HTTPS_URL = some url ∧ url ≠ "") →
      (env.BOT_PRIVATE_KEY = none ∨ env.BOT_PRIVATE_KEY = some "") →
      loadConfig env =
        .error ⟨"A variável BOT_PRIVATE_KEY não foi encontrada no seu .env"⟩) := by
  rcases env with ⟨_ | u, _ | k⟩ <;> simp [loadConfig, jsNot]
  constructor
  · intro h; simp [h]
  · intro hu hk; simp [hu, hk]

/-- C7 at concrete inputs: both missing, and only the key missing. -/
theorem loadConfig_error_message_witness :
    loadConfig ⟨none, none⟩ =
        .error ⟨"A variável ALCHEMY_HTTPS_URL não foi encontrada no seu .env"⟩ ∧
    loadConfig ⟨some "https://rpc", some ""⟩ =
        .error ⟨"A variável BOT_PRIVATE_KEY não foi encontrada no seu .env"⟩ :=
  ⟨(loadConfig_error_message ⟨none, none⟩).1 (Or.inl rfl),
   (loadConfig_error_message ⟨some "https://rpc", some ""⟩).2
     ⟨"https://rpc", rfl, by decide⟩ (Or.inr rfl)⟩

/-! ## scripts/deployFlashLoan.js: theorems -/

/-- C3: when `deployContract`, `waitForDeployment` and `getAddress` all
succeed and `getAddress` returns `a`, the last line written to standard output
is the fixed text "Contrato FlashLoanExecutor publicado com sucesso no
endereço: " followed by exactly `a`, and it is the last effect of the run. -/
theorem script_prints_returned_address (hre : Hre) (executor : Executor) (a : String)
    (hd : hre.deployContract "FlashLoanExecutor"
      ["0x7b0d91c1c221542642591a2bf354911a3ef1b74a"] = .ok executor)
    (hw : executor.waitForDeployment = .ok ())
    (hg : executor.getAddress = .ok a) :
    (stdoutLines (script hre Process.initial).trace).getLast? =
      some ("Contrato FlashLoanExecutor publicado com sucesso no endereço: " ++ a) ∧
    (script hre Process.initial).trace.getLast? =
      some (.stdout
        ("Contrato FlashLoanExecutor publicado com sucesso no endereço: " ++ a)) ∧
    (∀ b, Effect.stdout
        ("Contrato FlashLoanExecutor publicado com sucesso no endereço: " ++ b) ∈
          (script hre Process.initial).trace → b = a) := by
  refine ⟨?_, ?_, ?_⟩
  · simp [script, main, hd, hw, hg, consoleLog, Process.record, Process.initial,
      stdoutLines]
  · simp [script, main, hd, hw, hg, consoleLog, Process.record, Process.initial]
  · intro b hb
    simp [script, main, hd, hw, hg, consoleLog, Process.record, Process.initial] at hb
    rcases hb with hb | hb
    · exact absurd hb.symm (progress_ne_success b)
    · exact append_left_cancel _ _ _ hb

/-- C3 at a runtime whose deployment yields the address "0xabc". -/
theorem script_prints_returned_address_witness :
    (stdoutLines (script ⟨fun _ _ => .ok ⟨.ok (), .ok "0xabc"⟩⟩ Process.initial).trace).getLast? =
      some "Contrato FlashLoanExecutor publicado com sucesso no endereço: 0xabc" :=
  (script_prints_returned_address ⟨fun _ _ => .ok ⟨.ok (), .ok "0xabc"⟩⟩
    ⟨.ok (), .ok "0xabc"⟩ "0xabc" rfl rfl rfl).1

/-- C4: when the first failing awaited step of `main` (`deployContract`, else
`waitForDeployment`, else `getAddress`) fails with `e`, then `e` is the one
value written to error output, the exit code is 1, and no success line is on
standard output. -/
theorem script_failure (hre : Hre) (e : JsError)
    (h : hre.deployContract "FlashLoanExecutor"
          ["0x7b0d91c1c221542642591a2bf354911a3ef1b74a"] = .error e ∨
        ∃ executor, hre.deployContract "FlashLoanExecutor"
            ["0x7b0d91c1c221542642591a2bf354911a3ef1b74a"] = .ok executor ∧
          (executor.waitForDeployment = .error e ∨
            (executor.waitForDeployment = .ok () ∧ executor.getAddress = .error e))) :
    stderrWrites (script hre Process.initial).trace = [e] ∧
    (script hre Process.initial).exitCode = 1 ∧
    (∀ a, "Contrato FlashLoanExecutor publicado com sucesso no endereço: " ++ a ∉
      stdoutLines (script hre Process.initial).trace) := by
  have hp := progress_ne_success
  rcases h with hd | ⟨executor, hd, hw | ⟨hw, hg⟩⟩
  · simp [script, main, hd, consoleLog, consoleError, Process.record,
      Process.initial, stdoutLines, stderrWrites]
    exact fun a h => hp a h.symm
  · simp [script, main, hd, hw, consoleLog, consoleError, Process.record,
      Process.initial, stdoutLines, stderrWrites]
    exact fun a h => hp a h.symm
  · simp [script, main, hd, hw, hg, consoleLog, consoleError, Process.record,
      Process.initial, stdoutLines, stderrWrites]
    exact fun a h => hp a h.symm

/-- C4 at three runtimes, failing in `deployContract`, in `waitForDeployment`
and in `getAddress`. -/
theorem script_failure_witness :
    (stderrWrites (script ⟨fun _ _ => .error ⟨"rejected"⟩⟩ Process.initial).trace =
        [⟨"rejected"⟩] ∧
      (script ⟨fun _ _ => .error ⟨"rejected"⟩⟩ Process.initial).exitCode = 1) ∧
    (stderrWrites
        (script ⟨fun _ _ => .ok ⟨.error ⟨"reverted"⟩, .ok "0xabc"⟩⟩ Process.initial).trace =
        [⟨"reverted"⟩]) ∧
    (stderrWrites
        (script ⟨fun _ _ => .ok ⟨.ok (), .error ⟨"no address"⟩⟩⟩ Process.initial).trace =
        [⟨"no address"⟩]) :=
  ⟨⟨(script_failure ⟨fun _ _ => .error ⟨"rejected"⟩⟩ ⟨"rejected"⟩ (Or.inl rfl)).1,
    (script_failure ⟨fun _ _ => .error ⟨"rejected"⟩⟩ ⟨"rejected"⟩ (Or.inl rfl)).2.1⟩,
   (script_failure ⟨fun _ _ => .ok ⟨.error ⟨"reverted"⟩, .ok "0xabc"⟩⟩ ⟨"reverted"⟩
      (Or.inr ⟨_, rfl, Or.inl rfl⟩)).1,
   (script_failure ⟨fun _ _ => .ok ⟨.ok (), .error ⟨"no address"⟩⟩⟩ ⟨"no address"⟩
      (Or.inr ⟨_, rfl, Or.inr ⟨rfl, rfl⟩⟩)).1⟩

/-- C5 (amended): on a run where line 1 returns the runtime and
`deployContract`, `waitForDeployment` and `getAddress` all succeed, the script
leaves the exit code as it found it, 0 from startup, and writes nothing to
error output; from startup the exit code is 1 exactly when line 1 throws, so
that `main` is never called, or `main` rejects. -/
theorem deployFlashLoan_exit_code (required : Except JsError Hre) :
    (∀ hre executor a,
      required = .ok hre →
      hre.deployContract "FlashLoanExecutor"
        ["0x7b0d91c1c221542642591a2bf354911a3ef1b74a"] = .ok executor →
      executor.waitForDeployment = .ok () →
      executor.getAddress = .ok a →
        ((deployFlashLoan required Process.initial).exitCode = 0 ∧
          stderrWrites (deployFlashLoan required Process.initial).trace = []) ∧
        (∀ p : Process, (deployFlashLoan required p).exitCode = p.exitCode ∧
          stderrWrites (deployFlashLoan required p).trace = stderrWrites p.trace)) ∧
    ((deployFlashLoan required Process.initial).exitCode = 1 ↔
      (∃ e, required = .error e) ∨
      (∃ hre e, required = .ok hre ∧ (main hre Process.initial).1 = .error e)) := by
  constructor
  · intro hre executor a hr hd hw hg
    subst hr
    constructor
    · simp [deployFlashLoan, script, main, hd, hw, hg, consoleLog, Process.record,
        Process.initial, stderrWrites]
    · intro p
      simp [deployFlashLoan, script, main, hd, hw, hg, consoleLog, Process.record,
        stderrWrites_append, stderrWrites]
  · cases required with
    | error e0 => simp [deployFlashLoan, Process.record]
    | ok hre =>
      cases hd : hre.deployContract "FlashLoanExecutor"
          ["0x7b0d91c1c221542642591a2bf354911a3ef1b74a"] with
      | error e =>
        simp [deployFlashLoan, script, main, hd, consoleError, Process.record]
      | ok executor =>
        cases hw : executor.waitForDeployment with
        | error e =>
          simp [deployFlashLoan, script, main, hd, hw, consoleError, Process.record]
        | ok u =>
          cases hg : executor.getAddress with
          | error e =>
            simp [deployFlashLoan, script, main, hd, hw, hg, consoleError,
              Process.record]
          | ok a =>
            simp [deployFlashLoan, script, main, hd, hw, hg, consoleLog,
              Process.record, Process.initial]

/-- C5 at a succeeding runtime from startup, at a runtime whose deployment is
rejected, and at a line 1 that throws. -/
theorem deployFlashLoan_exit_code_witness :
    (deployFlashLoan (.ok ⟨fun _ _ => .ok ⟨.ok (), .ok "0xabc"⟩⟩) Process.initial).exitCode = 0 ∧
    stderrWrites
      (deployFlashLoan (.ok ⟨fun _ _ => .ok ⟨.ok (), .ok "0xabc"⟩⟩) Process.initial).trace = [] ∧
    (deployFlashLoan (.ok ⟨fun _ _ => .error ⟨"rejected"⟩⟩) Process.initial).exitCode = 1 ∧
    (deployFlashLoan (.error ⟨"no config"⟩) Process.initial).exitCode = 1 :=
  ⟨((deployFlashLoan_exit_code (.ok ⟨fun _ _ => .ok ⟨.ok (), .ok "0xabc"⟩⟩)).1
      _ ⟨.ok (), .ok "0xabc"⟩ "0xabc" rfl rfl rfl rfl).1.1,
   ((deployFlashLoan_exit_code (.ok ⟨fun _ _ => .ok ⟨.ok (), .ok "0xabc"⟩⟩)).1
      _ ⟨.ok (), .ok "0xabc"⟩ "0xabc" rfl rfl rfl rfl).1.2,
   (deployFlashLoan_exit_code (.ok ⟨fun _ _ => .error ⟨"rejected"⟩⟩)).2.2
      (Or.inr ⟨_, ⟨"rejected"⟩, rfl, rfl⟩),
   (deployFlashLoan_exit_code (.error ⟨"no config"⟩)).2.2 (Or.inl ⟨_, rfl⟩)⟩

/-- Counterexample to C5 as the specification states it: with both environment variables unset line 1
throws, the process ends with status 1, and `main` has not rejected, for it
was never called (and would have resolved on this runtime). -/
theorem deployFlashLoan_exit_code_counterexample :
    ¬ ((deployFlashLoan
          (requireHardhat ⟨none, none⟩ ⟨fun _ _ => .ok ⟨.ok (), .ok "0xabc"⟩⟩)
          Process.initial).exitCode = 1 ↔
        ∃ hre e,
          requireHardhat ⟨none, none⟩ ⟨fun _ _ => .ok ⟨.ok (), .ok "0xabc"⟩⟩ = .ok hre ∧
          (main hre Process.initial).1 = .error e) := by
  intro h
  obtain ⟨hre, e, hr, _⟩ := h.1 rfl
  simp [requireHardhat, loadConfig, jsNot] at hr

/-- C6 (amended): in every run in which line 1 returns the runtime, whether
`main` then succeeds or fails and whatever happened before, `deployContract`
is called exactly once, with contract name "FlashLoanExecutor" and the
one-element argument list ["0x7b0d91c1c221542642591a2bf354911a3ef1b74a"]. The
call is a real one: the run consults the runtime at this name and argument
list and nowhere else, and goes on with the answer it gets there. In a run in
which line 1 throws, `deployContract` is not called. -/
theorem deployFlashLoan_deploys_once :
    (∀ hre : Hre, deployCalls (deployFlashLoan (.ok hre) Process.initial).trace =
      [("FlashLoanExecutor", ["0x7b0d91c1c221542642591a2bf354911a3ef1b74a"])]) ∧
    (∀ (hre : Hre) (p : Process), deployCalls (deployFlashLoan (.ok hre) p).trace =
      deployCalls p.trace ++
        [("FlashLoanExecutor", ["0x7b0d91c1c221542642591a2bf354911a3ef1b74a"])]) ∧
    (∀ (hre₁ hre₂ : Hre) (p : Process),
      hre₁.deployContract "FlashLoanExecutor"
          ["0x7b0d91c1c221542642591a2bf354911a3ef1b74a"] =
        hre₂.deployContract "FlashLoanExecutor"
          ["0x7b0d91c1c221542642591a2bf354911a3ef1b74a"] →
      deployFlashLoan (.ok hre₁) p = deployFlashLoan (.ok hre₂) p) ∧
    (∀ (hre : Hre) (e : JsError) (p : Process),
      hre.deployContract "FlashLoanExecutor"
          ["0x7b0d91c1c221542642591a2bf354911a3ef1b74a"] = .error e →
      (main hre p).1 = .error e ∧
        stderrWrites (deployFlashLoan (.ok hre) p).trace = stderrWrites p.trace ++ [e]) ∧
    (∀ (hre : Hre) (executor : Executor) (e : JsError) (p : Process),
      hre.deployContract "FlashLoanExecutor"
          ["0x7b0d91c1c221542642591a2bf354911a3ef1b74a"] = .ok executor →
      executor.waitForDeployment = .error e →
      (main hre p).1 = .error e) ∧
    (∀ (e : JsError) (p : Process),
      deployCalls (deployFlashLoan (.error e) p).trace = deployCalls p.trace) := by
  have key : ∀ (hre : Hre) (p : Process), deployCalls (deployFlashLoan (.ok hre) p).trace =
      deployCalls p.trace ++
        [("FlashLoanExecutor", ["0x7b0d91c1c221542642591a2bf354911a3ef1b74a"])] := by
    intro hre p
    cases hd : hre.deployContract "FlashLoanExecutor"
        ["0x7b0d91c1c221542642591a2bf354911a3ef1b74a"] with
    | error e =>
      simp [deployFlashLoan, script, main, hd, consoleLog, consoleError,
        Process.record, deployCalls_append, deployCalls]
    | ok executor =>
      cases hw : executor.waitForDeployment with
      | error e =>
        simp [deployFlashLoan, script, main, hd, hw, consoleLog, consoleError,
          Process.record, deployCalls_append, deployCalls]
      | ok u =>
        cases hg : executor.getAddress with
        | error e =>
          simp [deployFlashLoan, script, main, hd, hw, hg, consoleLog, consoleError,
            Process.record, deployCalls_append, deployCalls]
        | ok a =>
          simp [deployFlashLoan, script, main, hd, hw, hg, consoleLog,
            Process.record, deployCalls_append, deployCalls]
  refine ⟨?_, key, ?_, ?_, ?_, ?_⟩
  · intro hre
    simpa [Process.initial, deployCalls] using key hre Process.initial
  · intro hre₁ hre₂ p h
    simp [deployFlashLoan, script, main, h]
  · intro hre e p hd
    simp [deployFlashLoan, script, main, hd, consoleLog, consoleError,
      Process.record, stderrWrites_append, stderrWrites]
  · intro hre executor e p hd hw
    simp [main, hd, hw]
  · intro e p
    simp [deployFlashLoan, Process.record, deployCalls_append, deployCalls]

/-- C6 at a runtime that rejects every deployment: one call is logged, and the
rejection is the error `main` rejects with. -/
theorem deployFlashLoan_deploys_once_witness :
    deployCalls
        (deployFlashLoan (.ok ⟨fun _ _ => .error ⟨"rejected"⟩⟩) Process.initial).trace =
      [("FlashLoanExecutor", ["0x7b0d91c1c221542642591a2bf354911a3ef1b74a"])] ∧
    (main ⟨fun _ _ => .error ⟨"rejected"⟩⟩ Process.initial).1 = .error ⟨"rejected"⟩ :=
  ⟨deployFlashLoan_deploys_once.1 ⟨fun _ _ => .error ⟨"rejected"⟩⟩,
   (deployFlashLoan_deploys_once.2.2.2.1 ⟨fun _ _ => .error ⟨"rejected"⟩⟩
      ⟨"rejected"⟩ Process.initial rfl).1⟩

/-- Counterexample to C6 as the specification states it: with both environment variables unset line 1
throws and the run calls `deployContract` not once but never. -/
theorem deployFlashLoan_deploys_once_counterexample :
    deployCalls
        (deployFlashLoan
          (requireHardhat ⟨none, none⟩ ⟨fun _ _ => .ok ⟨.ok (), .ok "0xabc"⟩⟩)
          Process.initial).trace = [] ∧
    deployCalls
        (deployFlashLoan
          (requireHardhat ⟨none, none⟩ ⟨fun _ _ => .ok ⟨.ok (), .ok "0xabc"⟩⟩)
          Process.initial).trace ≠
      [("FlashLoanExecutor", ["0x7b0d91c1c221542642591a2bf354911a3ef1b74a"])] := by
  constructor <;> decide

/-- C8 (amended): in every run in which line 1 returns the runtime, the
effects of `main` form a prefix of the straight line progress line,
`deployContract`, `waitForDeployment`, `getAddress`, success line. The progress
line is the first effect of such a run, also when `main` then fails;
`waitForDeployment` is called exactly when `deployContract` succeeded,
`getAddress` exactly when `waitForDeployment` succeeded too, and the success
line for `a` is printed exactly when `getAddress` then returned `a`; a
successful run writes exactly the two lines to standard output. In a run in
which line 1 throws, nothing is written to standard output and none of the
steps happens. -/
theorem deployFlashLoan_trace_straight_line :
    (∀ hre : Hre,
      (deployFlashLoan (.ok hre) Process.initial).trace.head? =
        some (.stdout "Fazendo deploy do contrato FlashLoanExecutor...") ∧
      (∃ a, (main hre Process.initial).2.trace <+:
        [.stdout "Fazendo deploy do contrato FlashLoanExecutor...",
         .deployContract "FlashLoanExecutor"
           ["0x7b0d91c1c221542642591a2bf354911a3ef1b74a"],
         .waitForDeployment,
         .getAddress,
         .stdout
           ("Contrato FlashLoanExecutor publicado com sucesso no endereço: " ++ a)]) ∧
      (Effect.waitForDeployment ∈ (deployFlashLoan (.ok hre) Process.initial).trace ↔
        ∃ executor, hre.deployContract "FlashLoanExecutor"
          ["0x7b0d91c1c221542642591a2bf354911a3ef1b74a"] = .ok executor) ∧
      (Effect.getAddress ∈ (deployFlashLoan (.ok hre) Process.initial).trace ↔
        ∃ executor, hre.deployContract "FlashLoanExecutor"
            ["0x7b0d91c1c221542642591a2bf354911a3ef1b74a"] = .ok executor ∧
          executor.waitForDeployment = .ok ()) ∧
      (∀ a, Effect.stdout
          ("Contrato FlashLoanExecutor publicado com sucesso no endereço: " ++ a) ∈
            (deployFlashLoan (.ok hre) Process.initial).trace ↔
        ∃ executor, hre.deployContract "FlashLoanExecutor"
            ["0x7b0d91c1c221542642591a2bf354911a3ef1b74a"] = .ok executor ∧
          executor.waitForDeployment = .ok () ∧ executor.getAddress = .ok a) ∧
      (∀ executor a,
        hre.deployContract "FlashLoanExecutor"
          ["0x7b0d91c1c221542642591a2bf354911a3ef1b74a"] = .ok executor →
        executor.waitForDeployment = .ok () →
        executor.getAddress = .ok a →
        stdoutLines (deployFlashLoan (.ok hre) Process.initial).trace =
          ["Fazendo deploy do contrato FlashLoanExecutor...",
           "Contrato FlashLoanExecutor publicado com sucesso no endereço: " ++ a])) ∧
    (∀ e : JsError,
      stdoutLines (deployFlashLoan (.error e) Process.initial).trace = [] ∧
      deployCalls (deployFlashLoan (.error e) Process.initial).trace = [] ∧
      Effect.waitForDeployment ∉ (deployFlashLoan (.error e) Process.initial).trace ∧
      Effect.getAddress ∉ (deployFlashLoan (.error e) Process.initial).trace) := by
  have hp : ∀ a, ¬ "Contrato FlashLoanExecutor publicado com sucesso no endereço: " ++ a =
      "Fazendo deploy do contrato FlashLoanExecutor..." :=
    fun a h => progress_ne_success a h.symm
  have hc : ∀ a b, "Contrato FlashLoanExecutor publicado com sucesso no endereço: " ++ a =
      "Contrato FlashLoanExecutor publicado com sucesso no endereço: " ++ b ↔ a = b :=
    fun a b => ⟨append_left_cancel _ a b, fun h => by rw [h]⟩
  constructor
  · intro hre
    cases hd : hre.deployContract "FlashLoanExecutor"
        ["0x7b0d91c1c221542642591a2bf354911a3ef1b74a"] with
    | error e =>
      simp [deployFlashLoan, script, main, hd, consoleLog, consoleError,
        Process.record, Process.initial, stdoutLines, hp]
    | ok executor =>
      cases hw : executor.waitForDeployment with
      | error e =>
        simp [deployFlashLoan, script, main, hd, hw, consoleLog, consoleError,
          Process.record, Process.initial, stdoutLines, hp]
        intro executor' a h hw'
        subst h
        simp [hw] at hw'
      | ok u =>
        cases hg : executor.getAddress with
        | error e =>
          simp [deployFlashLoan, script, main, hd, hw, hg, consoleLog, consoleError,
            Process.record, Process.initial, stdoutLines, hp]
          intro executor' a h _ hg'
          subst h
          simp [hg] at hg'
        | ok a =>
          simp [deployFlashLoan, script, main, hd, hw, hg, consoleLog, consoleError,
            Process.record, Process.initial, stdoutLines, hp, hc]
          refine ⟨fun b => eq_comm, ?_⟩
          intro executor' b h _ hg'
          subst h
          simpa [hg] using hg'
  · intro e
    simp [deployFlashLoan, Process.record, Process.initial, stdoutLines, deployCalls]

/-- C8 at a succeeding runtime: the two lines on standard output. -/
theorem deployFlashLoan_trace_straight_line_witness :
    stdoutLines
        (deployFlashLoan (.ok ⟨fun _ _ => .ok ⟨.ok (), .ok "0xabc"⟩⟩) Process.initial).trace =
      ["Fazendo deploy do contrato FlashLoanExecutor...",
       "Contrato FlashLoanExecutor publicado com sucesso no endereço: " ++ "0xabc"] :=
  (deployFlashLoan_trace_straight_line.1 ⟨fun _ _ => .ok ⟨.ok (), .ok "0xabc"⟩⟩).2.2.2.2.2
    ⟨.ok (), .ok "0xabc"⟩ "0xabc" rfl rfl rfl

/-- Counterexample to C8 as the specification states it: with both environment variables unset line 1
throws, and the progress line is not the first effect of the run: standard
output stays empty. -/
theorem deployFlashLoan_trace_straight_line_counterexample :
    (deployFlashLoan
        (requireHardhat ⟨none, none⟩ ⟨fun _ _ => .ok ⟨.ok (), .ok "0xabc"⟩⟩)
        Process.initial).trace.head? ≠
      some (.stdout "Fazendo deploy do contrato FlashLoanExecutor...") ∧
    stdoutLines
        (deployFlashLoan
          (requireHardhat ⟨none, none⟩ ⟨fun _ _ => .ok ⟨.ok (), .ok "0xabc"⟩⟩)
          Process.initial).trace = [] := by
  constructor <;> decide

end SniperBot
